import Mathlib

/-!
Shallow embedding of the express-locallibrary CRUD controllers:
the genre controller, the book controller and the bookinstance controller.
Entities live in an explicit `Store`; each request handler is a pure
function from the store and the request data to the new store and the
response(s) it writes. Handlers that can write a response twice (the
source omits a `return` after some redirects) return the list of write
attempts; the client observes the first one.
-/

namespace LocalLibrary

/-- The validator chain `.escape()` of one character, per validator.js:
`&`, `"`, `'`, `<`, `>`, `/`, `\` and the backquote are replaced by HTML
entities. -/
def escapeChar (c : Char) : String :=
  if c = '&' then "&amp;"
  else if c = '"' then "&quot;"
  else if c.toNat = 39 then "&#x27;"
  else if c = '<' then "&lt;"
  else if c = '>' then "&gt;"
  else if c = '/' then "&#x2F;"
  else if c = '\\' then "&#x5C;"
  else if c.toNat = 96 then "&#96;"
  else String.singleton c

/-- HTML-escaping sanitizer applied by the `.escape()` step of every
validation chain. -/
def escape (s : String) : String :=
  String.join (s.toList.map escapeChar)

/-- Whitespace as stripped by the `.trim()` sanitizer: space, tab and
line-terminator characters. -/
def isWsChar (c : Char) : Bool :=
  c = ' ' || c = '\t' || c = '\n' || c = '\r' || c.toNat = 11 || c.toNat = 12

/-- The `.trim()` sanitizer: strip leading and trailing whitespace. -/
def jsTrim (s : String) : String :=
  ⟨((s.data.dropWhile isWsChar).reverse.dropWhile isWsChar).reverse⟩

/-- Lower-case an ASCII letter, identity elsewhere. -/
def lowerChar (c : Char) : Char :=
  if 65 ≤ c.toNat && c.toNat ≤ 90 then Char.ofNat (c.toNat + 32) else c

/-- Case-insensitive string comparison: the collation
`{ locale: "en", strength: 2 }` used by the genre duplicate check ignores
letter case. -/
def ciEq (a b : String) : Bool :=
  a.data.map lowerChar == b.data.map lowerChar

/-- A calendar date, the value produced by the `.toDate()` sanitizer. -/
structure CalDate where
  year : Nat
  month : Nat
  day : Nat
deriving DecidableEq, Repr

def isLeapYear (y : Nat) : Bool :=
  (y % 4 = 0 && y % 100 ≠ 0) || y % 400 = 0

def daysInMonth (y m : Nat) : Nat :=
  if m = 2 then (if isLeapYear y then 29 else 28)
  else if m = 4 || m = 6 || m = 9 || m = 11 then 30
  else 31

def digitVal (c : Char) : Nat := c.toNat - 48

/-- Modelled from the spec: the `isISO8601` validator of the external
validation library is not part of this repository; the spec requires
`due_back`, when present, to "parse as a valid calendar date (ISO-8601)".
We model the ISO-8601 calendar-date form `YYYY-MM-DD` with month and
day-of-month range checks (leap years included). -/
def parseISO8601 (s : String) : Option CalDate :=
  match s.toList with
  | [y1, y2, y3, y4, h1, m1, m2, h2, d1, d2] =>
    if y1.isDigit && y2.isDigit && y3.isDigit && y4.isDigit &&
       h1 = '-' && h2 = '-' &&
       m1.isDigit && m2.isDigit && d1.isDigit && d2.isDigit then
      let y := ((digitVal y1 * 10 + digitVal y2) * 10 + digitVal y3) * 10 + digitVal y4
      let m := digitVal m1 * 10 + digitVal m2
      let d := digitVal d1 * 10 + digitVal d2
      if 1 ≤ m && m ≤ 12 && 1 ≤ d && d ≤ daysInMonth y m then
        some ⟨y, m, d⟩
      else none
    else none
  | _ => none

/-- One entry of `errors.array()`: the field the rule failed on and its
message. -/
structure FieldError where
  field : String
  msg : String
deriving DecidableEq, Repr

/-- A response written by a handler: `res.render`, `res.redirect`, or an
error surfaced through `next(err)` / an uncaught fault (carrying the HTTP
status). Rendering uses the success status. -/
inductive Response where
  | render (template : String) (errors : List FieldError)
  | redirect (url : String)
  | error (status : Nat)
deriving DecidableEq, Repr

/-- HTTP status of a response: `res.render` answers 200, `res.redirect`
answers 302, errors carry their status. -/
def Response.status : Response → Nat
  | .render _ _ => 200
  | .redirect _ => 302
  | .error s => s

/-- The client observes the first response written; later writes on an
already-sent response fail server-side and never reach the client. -/
def observableResponse (rs : List Response) : Option Response :=
  rs.head?

/-- A stored Genre document. -/
structure Genre where
  id : String
  name : String
deriving DecidableEq, Repr

/-- A stored Book document; `genre` holds the ids of the referenced
genres. -/
structure Book where
  id : String
  title : String
  author : String
  summary : String
  isbn : String
  genre : List String
deriving DecidableEq, Repr

/-- A stored BookInstance document; `book` is the id of the referenced
book. -/
structure BookInstance where
  id : String
  book : String
  imprint : String
  status : String
  due_back : Option CalDate
deriving DecidableEq, Repr

/-- The document store: the three collections the excerpted controllers
touch. -/
structure Store where
  genres : List Genre
  books : List Book
  instances : List BookInstance
deriving DecidableEq, Repr

/-- `Model.findById`: first document whose id matches. -/
def findById {α : Type} (key : α → String) (l : List α) (i : String) : Option α :=
  l.find? (fun a => key a == i)

/-- `Model.findByIdAndDelete`: remove the documents whose id matches; a
miss is a no-op, not an error. -/
def deleteById {α : Type} (key : α → String) (l : List α) (i : String) : List α :=
  l.filter (fun a => !(key a == i))

/-- `Model.findByIdAndUpdate(i, n)`: replace the fields of the matching
document by those of `n` (the id itself is immutable); a miss is a
no-op. -/
def updateById {α : Type} (key : α → String) (l : List α) (i : String) (n : α) : List α :=
  l.map (fun a => if key a == i then n else a)

def findGenre (s : Store) (i : String) : Option Genre :=
  findById Genre.id s.genres i

def findBook (s : Store) (i : String) : Option Book :=
  findById Book.id s.books i

def findInstance (s : Store) (i : String) : Option BookInstance :=
  findById BookInstance.id s.instances i

/-- Modelled from the spec: the mongoose models (with their virtual `url`)
are not under the excerpted sources; the spec says every entity carries a
"derived `url` = canonical path built from id". -/
def genreUrl (i : String) : String := "/catalog/genre/" ++ i

/-- Modelled from the spec: derived detail url of a Book, built from its
id. -/
def bookUrl (i : String) : String := "/catalog/book/" ++ i

/-- Modelled from the spec: derived detail url of a BookInstance, built
from its id. -/
def bookInstanceUrl (i : String) : String := "/catalog/bookinstance/" ++ i

/-- A chain `body(f, msg).trim().isLength({ min }).escape()`: it reports
`msg` on field `f` when the trimmed value is shorter than `min`. -/
def requiredMin (minLen : Nat) (fieldName : String) (msg : String) (raw : String) :
    List FieldError :=
  if minLen ≤ (jsTrim raw).length then [] else [⟨fieldName, msg⟩]

/-- `genre_create_post`: validate the name (trim, min length 3, escape),
re-render the form on failure; otherwise look up an existing genre whose
name matches case-insensitively (first match in natural order), redirect
to the existing genre's url without saving if found, else save the new
genre and redirect to its url. -/
def genre_create_post (s : Store) (freshId : String) (rawName : String) :
    Store × Response :=
  let errors := requiredMin 3 "name" "ジャンル名は3文字以上必要です" rawName
  let genre : Genre := { id := freshId, name := escape (jsTrim rawName) }
  if errors = [] then
    match s.genres.find? (fun g => ciEq g.name genre.name) with
    | some genreExists => (s, .redirect (genreUrl genreExists.id))
    | none =>
      ({ s with genres := s.genres ++ [genre] }, .redirect (genreUrl genre.id))
  else
    (s, .render "genre_form" errors)

/-- `genre_delete_get`: fetch the genre; when it is missing a redirect to
the genre list is written, but the source omits `return`, so the render of
the confirmation view is still attempted afterwards. -/
def genre_delete_get (s : Store) (paramsId : String) : List Response :=
  let genre := findGenre s paramsId
  (if genre.isNone then [Response.redirect "/catalog/genres"] else [])
    ++ [Response.render "genre_delete" []]

/-- `genre_delete_post`: fetch the books referencing the url-parameter id;
when some exist, re-render the confirmation view and change nothing; else
delete the genre named by the request-body id and redirect to the list. -/
def genre_delete_post (s : Store) (paramsId bodyId : String) :
    Store × List Response :=
  let booksInGenre := s.books.filter (fun b => b.genre.contains paramsId)
  if booksInGenre.length > 0 then
    (s, [.render "genre_delete" []])
  else
    ({ s with genres := deleteById Genre.id s.genres bodyId },
     [.redirect "/catalog/genres"])

/-- `genre_update_post`: validate the name as in create, re-render the
form on failure; otherwise update the document at the url-parameter id and
redirect to its url (no duplicate check on rename). -/
def genre_update_post (s : Store) (paramsId rawName : String) :
    Store × Response :=
  let errors := requiredMin 3 "name" "ジャンル名は3文字以上必要です" rawName
  let genre : Genre := { id := paramsId, name := escape (jsTrim rawName) }
  if errors = [] then
    ({ s with genres := updateById Genre.id s.genres paramsId genre },
     .redirect (genreUrl genre.id))
  else
    (s, .render "genre_form" errors)

/-- The raw `genre` field of a book form: absent, a single scalar value,
or an array of values. -/
inductive GenreField where
  | absent
  | scalar (v : String)
  | array (l : List String)
deriving DecidableEq, Repr

/-- The normalization middleware of `book_create_post` and
`book_update_post`: when `req.body.genre` is not an array it becomes `[]`
if undefined and `[value]` otherwise; an array passes through. -/
def normalizeGenre : GenreField → List String
  | .absent => []
  | .scalar v => [v]
  | .array l => l

/-- The raw fields of a book form submission. -/
structure BookForm where
  title : String
  author : String
  summary : String
  isbn : String
  genre : GenreField
deriving DecidableEq, Repr

/-- The validation chains of `book_create_post` / `book_update_post`:
title, author, summary and isbn are required non-empty after trimming;
`genre.*` is only escaped and never fails. -/
def bookValidationErrors (form : BookForm) : List FieldError :=
  requiredMin 1 "title" "タイトルは必須です" form.title
    ++ requiredMin 1 "author" "著者を選択してください" form.author
    ++ requiredMin 1 "summary" "概要を入力してください" form.summary
    ++ requiredMin 1 "isbn" "ISBNは必須です" form.isbn

/-- The Book document built from the sanitized form fields: each required
field trimmed then escaped, each normalized genre id escaped. -/
def bookOfForm (i : String) (form : BookForm) : Book :=
  { id := i
    title := escape (jsTrim form.title)
    author := escape (jsTrim form.author)
    summary := escape (jsTrim form.summary)
    isbn := escape (jsTrim form.isbn)
    genre := (normalizeGenre form.genre).map escape }

/-- `book_create_post`: normalize the genre field, validate; on failure
re-render the form with the error list; on success save the new book and
redirect to its url. -/
def book_create_post (s : Store) (freshId : String) (form : BookForm) :
    Store × Response :=
  let errors := bookValidationErrors form
  let book := bookOfForm freshId form
  if errors = [] then
    ({ s with books := s.books ++ [book] }, .redirect (bookUrl book.id))
  else
    (s, .render "book_form" errors)

/-- `book_delete_get`: fetch the book; when missing a redirect to the book
list is written, and (missing `return`) the confirmation render is still
attempted afterwards. -/
def book_delete_get (s : Store) (paramsId : String) : List Response :=
  let book := findBook s paramsId
  (if book.isNone then [Response.redirect "/catalog/books"] else [])
    ++ [Response.render "book_delete" []]

/-- `book_delete_post`: fetch the book and its instances by the
url-parameter id; when the book is missing a redirect is written (without
`return`); when instances exist, re-render the confirmation view and
change nothing; else delete the book named by the request-body id and
redirect to the list. -/
def book_delete_post (s : Store) (paramsId bodyId : String) :
    Store × List Response :=
  let book := findBook s paramsId
  let bookInstances := s.instances.filter (fun bi => bi.book == paramsId)
  let pre := if book.isNone then [Response.redirect "/catalog/books"] else []
  if bookInstances.length > 0 then
    (s, pre ++ [.render "book_delete" []])
  else
    ({ s with books := deleteById Book.id s.books bodyId },
     pre ++ [.redirect "/catalog/books"])

/-- `book_update_post`: normalize and validate as in create; on failure
re-render the form keeping the url-parameter id on the book object; on
success update the document at that id and redirect to the url of the
returned (pre-update) document — when the id matches nothing the returned
document is null and reading its url faults, surfacing a 500. -/
def book_update_post (s : Store) (paramsId : String) (form : BookForm) :
    Store × Response :=
  let errors := bookValidationErrors form
  let book := bookOfForm paramsId form
  if errors = [] then
    match findBook s paramsId with
    | some thebook =>
      ({ s with books := updateById Book.id s.books paramsId book },
       .redirect (bookUrl thebook.id))
    | none =>
      ({ s with books := updateById Book.id s.books paramsId book },
       .error 500)
  else
    (s, .render "book_form" errors)

/-- The raw fields of a bookinstance form submission; `none` stands for an
absent `due_back` field. -/
structure BIForm where
  book : String
  imprint : String
  status : String
  due_back : Option String
deriving DecidableEq, Repr

/-- The `due_back` chain
`body("due_back").optional({ values: "falsy" }).isISO8601().toDate()`:
a falsy value (absent or empty) skips the chain and the document field
stays empty; otherwise the value must parse as an ISO-8601 calendar date
and is converted, else the dedicated message is reported. -/
def biDueBack : Option String → Except FieldError (Option CalDate)
  | none => .ok none
  | some v =>
    if v = "" then .ok none
    else
      match parseISO8601 v with
      | some d => .ok (some d)
      | none => .error ⟨"due_back", "無効な日付形式です"⟩

/-- The validation chains of `bookinstance_create_post` /
`bookinstance_update_post`, in chain order: book and imprint required
non-empty after trimming, status only escaped (never fails), due_back per
`biDueBack`. -/
def biValidationErrors (form : BIForm) : List FieldError :=
  requiredMin 1 "book" "書籍を指定してください" form.book
    ++ requiredMin 1 "imprint" "出版情報を指定してください" form.imprint
    ++ (match biDueBack form.due_back with
        | .error e => [e]
        | .ok _ => [])

/-- The converted `due_back` value carried into the document when the
chain succeeded. -/
def biDueDate (form : BIForm) : Option CalDate :=
  match biDueBack form.due_back with
  | .ok d => d
  | .error _ => none

/-- The BookInstance document built from the sanitized form fields: book
and imprint trimmed then escaped, status escaped only. -/
def biOfForm (i : String) (form : BIForm) (due : Option CalDate) :
    BookInstance :=
  { id := i
    book := escape (jsTrim form.book)
    imprint := escape (jsTrim form.imprint)
    status := escape form.status
    due_back := due }

/-- `bookinstance_create_post`: validate; on failure re-render the form
with the error list; on success save the new instance and redirect to its
url. -/
def bookinstance_create_post (s : Store) (freshId : String) (form : BIForm) :
    Store × Response :=
  let errors := biValidationErrors form
  if errors = [] then
    ({ s with instances := s.instances ++ [biOfForm freshId form (biDueDate form)] },
     .redirect (bookInstanceUrl freshId))
  else
    (s, .render "bookinstance_form" errors)

/-- `bookinstance_delete_get`: fetch the instance; when missing a redirect
to the instance list is written, and (missing `return`) the confirmation
render is still attempted afterwards. -/
def bookinstance_delete_get (s : Store) (paramsId : String) : List Response :=
  let bookInstance := findInstance s paramsId
  (if bookInstance.isNone then [Response.redirect "/catalog/bookinstances"] else [])
    ++ [Response.render "bookinstance_delete" []]

/-- `bookinstance_delete_post`: unconditionally delete the instance named
by the request-body id (assumed valid, never checked) and redirect to the
instance list. -/
def bookinstance_delete_post (s : Store) (bodyId : String) :
    Store × List Response :=
  ({ s with instances := deleteById BookInstance.id s.instances bodyId },
   [.redirect "/catalog/bookinstances"])

/-- `bookinstance_update_post`: validate as in create; on failure
re-render the form keeping the url-parameter id; on success update the
document at that id and redirect to its url. -/
def bookinstance_update_post (s : Store) (paramsId : String) (form : BIForm) :
    Store × Response :=
  let errors := biValidationErrors form
  let bookInstance := biOfForm paramsId form (biDueDate form)
  if errors = [] then
    ({ s with instances := updateById BookInstance.id s.instances paramsId bookInstance },
     .redirect (bookInstanceUrl bookInstance.id))
  else
    (s, .render "bookinstance_form" errors)

/-! ### Lemmas about the storage operations -/

theorem findById_deleteById_self {α : Type} (key : α → String) (l : List α)
    (i : String) : findById key (deleteById key l i) i = none := by
  rw [findById, List.find?_eq_none]
  intro a ha
  have h := List.of_mem_filter ha
  simpa using h

theorem findById_deleteById_ne {α : Type} (key : α → String) (l : List α)
    (i j : String) (h : j ≠ i) :
    findById key (deleteById key l i) j = findById key l j := by
  induction l with
  | nil => rfl
  | cons a t ih =>
    simp only [findById, deleteById] at ih ⊢
    by_cases hai : (key a == i) = true
    · have haj : (key a == j) = false := by
        rw [beq_iff_eq] at hai
        rw [beq_eq_false_iff_ne]
        intro hj
        exact h (by rw [← hj, hai])
      simp [List.filter_cons, List.find?_cons, hai, haj, ih]
    · by_cases haj : (key a == j) = true
      · simp [List.filter_cons, List.find?_cons, hai, haj]
      · simp [List.filter_cons, List.find?_cons, hai, haj, ih]

theorem deleteById_of_not_found {α : Type} (key : α → String) (l : List α)
    (i : String) (h : findById key l i = none) : deleteById key l i = l := by
  rw [findById, List.find?_eq_none] at h
  rw [deleteById, List.filter_eq_self]
  intro a ha
  simpa using h a ha

theorem findById_updateById_self {α : Type} (key : α → String) (l : List α)
    (i : String) (n : α) (hn : key n = i) :
    findById key (updateById key l i n) i = (findById key l i).map (fun _ => n) := by
  induction l with
  | nil => rfl
  | cons a t ih =>
    simp only [findById, updateById] at ih ⊢
    rw [List.map_cons]
    by_cases hai : (key a == i) = true
    · rw [if_pos hai]
      have hpn : (key n == i) = true := by rw [hn]; exact beq_self_eq_true i
      rw [List.find?_cons, List.find?_cons]
      simp only [hpn, hai]
      rfl
    · rw [if_neg hai]
      have hf : (key a == i) = false := by simpa using hai
      rw [List.find?_cons, List.find?_cons]
      simp only [hf]
      exact ih

theorem map_key_updateById {α : Type} (key : α → String) (l : List α)
    (i : String) (n : α) (hn : key n = i) :
    (updateById key l i n).map key = l.map key := by
  rw [updateById, List.map_map]
  apply List.map_congr_left
  intro a ha
  by_cases hai : key a == i
  · rw [beq_iff_eq] at hai
    simp [Function.comp, hai, hn]
  · simp [Function.comp, hai]

theorem mem_requiredMin {n : Nat} {f m r : String} {e : FieldError}
    (h : e ∈ requiredMin n f m r) : e.field = f := by
  unfold requiredMin at h
  split at h
  · simp at h
  · simp at h
    rw [h]

theorem biDueBack_error_field {x : Option String} {e : FieldError}
    (h : biDueBack x = .error e) : e.field = "due_back" := by
  cases x with
  | none => exact Except.noConfusion h
  | some v =>
    simp only [biDueBack] at h
    by_cases hv : v = ""
    · rw [if_pos hv] at h
      exact Except.noConfusion h
    · rw [if_neg hv] at h
      cases hp : parseISO8601 v with
      | some d =>
        rw [hp] at h
        exact Except.noConfusion h
      | none =>
        rw [hp] at h
        injection h with h2
        rw [← h2]

theorem mem_biValidationErrors_field {form : BIForm} {e : FieldError}
    (h : e ∈ biValidationErrors form) :
    e.field = "book" ∨ e.field = "imprint" ∨ e.field = "due_back" := by
  unfold biValidationErrors at h
  rcases List.mem_append.mp h with h12 | h3
  · rcases List.mem_append.mp h12 with h1 | h2
    · exact .inl (mem_requiredMin h1)
    · exact .inr (.inl (mem_requiredMin h2))
  · refine .inr (.inr ?_)
    revert h3
    cases hd : biDueBack form.due_back with
    | error e2 =>
      intro h3
      simp at h3
      rw [h3]
      exact biDueBack_error_field hd
    | ok d =>
      intro h3
      simp at h3

/-! ### Claim theorems -/

/-- C3: for every id matching no stored entity, the delete_get handler of
Book, Genre and BookInstance responds with a redirect to that entity's
list page, not with an error page and not with the confirmation view. -/
theorem delete_get_missing_redirects_to_list (s : Store) (i : String) :
    (findBook s i = none →
      observableResponse (book_delete_get s i)
        = some (.redirect "/catalog/books") ∧
      (∀ t es, observableResponse (book_delete_get s i) ≠ some (.render t es)) ∧
      (∀ n, observableResponse (book_delete_get s i) ≠ some (.error n))) ∧
    (findGenre s i = none →
      observableResponse (genre_delete_get s i)
        = some (.redirect "/catalog/genres") ∧
      (∀ t es, observableResponse (genre_delete_get s i) ≠ some (.render t es)) ∧
      (∀ n, observableResponse (genre_delete_get s i) ≠ some (.error n))) ∧
    (findInstance s i = none →
      observableResponse (bookinstance_delete_get s i)
        = some (.redirect "/catalog/bookinstances") ∧
      (∀ t es, observableResponse (bookinstance_delete_get s i)
        ≠ some (.render t es)) ∧
      (∀ n, observableResponse (bookinstance_delete_get s i)
        ≠ some (.error n))) := by
  refine ⟨fun hb => ?_, fun hg => ?_, fun hi => ?_⟩
  · simp [book_delete_get, observableResponse, hb]
  · simp [genre_delete_get, observableResponse, hg]
  · simp [bookinstance_delete_get, observableResponse, hi]

/-- C3 witness: on the empty store every delete_get answers the redirect
to the corresponding list. -/
theorem delete_get_missing_redirects_to_list_witness :
    observableResponse (book_delete_get ⟨[], [], []⟩ "x")
      = some (.redirect "/catalog/books") ∧
    observableResponse (genre_delete_get ⟨[], [], []⟩ "x")
      = some (.redirect "/catalog/genres") ∧
    observableResponse (bookinstance_delete_get ⟨[], [], []⟩ "x")
      = some (.redirect "/catalog/bookinstances") :=
  ⟨((delete_get_missing_redirects_to_list ⟨[], [], []⟩ "x").1 rfl).1,
   ((delete_get_missing_redirects_to_list ⟨[], [], []⟩ "x").2.1 rfl).1,
   ((delete_get_missing_redirects_to_list ⟨[], [], []⟩ "x").2.2 rfl).1⟩

/-- C7: in `book_create_post` and `book_update_post` the genre field is
normalized to a sequence before anything else: absent becomes the empty
sequence, a scalar becomes the one-element sequence, an array is left
unchanged — and the handlers cannot tell a scalar from its one-element
sequence, nor an absent field from the empty sequence. -/
theorem book_genre_field_normalized (v : String) (l : List String) (s : Store)
    (freshId paramsId : String) (form : BookForm) :
    normalizeGenre .absent = [] ∧
    normalizeGenre (.scalar v) = [v] ∧
    normalizeGenre (.array l) = l ∧
    book_create_post s freshId { form with genre := .scalar v }
      = book_create_post s freshId { form with genre := .array [v] } ∧
    book_create_post s freshId { form with genre := .absent }
      = book_create_post s freshId { form with genre := .array [] } ∧
    book_update_post s paramsId { form with genre := .scalar v }
      = book_update_post s paramsId { form with genre := .array [v] } ∧
    book_update_post s paramsId { form with genre := .absent }
      = book_update_post s paramsId { form with genre := .array [] } :=
  ⟨rfl, rfl, rfl, rfl, rfl, rfl, rfl⟩

/-- C10: `bookinstance_delete_post` is unconditional — it deletes the
request-body id and redirects to the instance list, with the same
observable response whether or not the instance exists, touching no other
collection; deleting a missing id leaves the store unchanged. -/
theorem bookinstance_delete_post_unconditional (s : Store) (bodyId : String) :
    bookinstance_delete_post s bodyId
      = ({ s with instances := deleteById BookInstance.id s.instances bodyId },
         [.redirect "/catalog/bookinstances"]) ∧
    (bookinstance_delete_post s bodyId).2 = [.redirect "/catalog/bookinstances"] ∧
    (bookinstance_delete_post s bodyId).1.books = s.books ∧
    (bookinstance_delete_post s bodyId).1.genres = s.genres ∧
    findInstance (bookinstance_delete_post s bodyId).1 bodyId = none ∧
    (findInstance s bodyId = none →
      bookinstance_delete_post s bodyId
        = (s, [.redirect "/catalog/bookinstances"])) := by
  refine ⟨rfl, rfl, rfl, rfl, ?_, fun h => ?_⟩
  · exact findById_deleteById_self BookInstance.id s.instances bodyId
  · simp only [bookinstance_delete_post,
      deleteById_of_not_found BookInstance.id s.instances bodyId h]

/-- C10 witness: deleting an id that matches nothing answers the redirect
and leaves the concrete store unchanged. -/
theorem bookinstance_delete_post_unconditional_witness :
    bookinstance_delete_post ⟨[], [], [⟨"i1", "b1", "imp", "Available", none⟩]⟩ "zz"
      = (⟨[], [], [⟨"i1", "b1", "imp", "Available", none⟩]⟩,
         [.redirect "/catalog/bookinstances"]) :=
  (bookinstance_delete_post_unconditional
    ⟨[], [], [⟨"i1", "b1", "imp", "Available", none⟩]⟩ "zz").2.2.2.2.2 (by decide)

/-- C1: genre creation is idempotent under case-insensitive name
collision — with a valid name, when a stored genre's name matches the
sanitized submission case-insensitively, nothing is saved and the response
redirects to the existing genre's detail url; with no match the new genre
is appended and the response redirects to its detail url. -/
theorem genre_create_post_idempotent (s : Store) (freshId rawName : String)
    (hvalid : 3 ≤ (jsTrim rawName).length) :
    (∀ g, s.genres.find? (fun g2 => ciEq g2.name (escape (jsTrim rawName))) = some g →
      genre_create_post s freshId rawName = (s, .redirect (genreUrl g.id)) ∧
      g ∈ s.genres) ∧
    (s.genres.find? (fun g2 => ciEq g2.name (escape (jsTrim rawName))) = none →
      genre_create_post s freshId rawName =
        ({ s with genres := s.genres ++ [{ id := freshId, name := escape (jsTrim rawName) }] },
         .redirect (genreUrl freshId))) := by
  constructor
  · intro g hg
    refine ⟨?_, List.mem_of_find?_eq_some hg⟩
    simp [genre_create_post, requiredMin, hvalid, hg]
  · intro hg
    simp [genre_create_post, requiredMin, hvalid, hg]

/-- C1 witness: after "Fantasy" is stored, submitting "fantasy" saves
nothing and redirects to the stored genre's detail url; on an empty store
the same submission saves a record and redirects to the fresh id's url. -/
theorem genre_create_post_idempotent_witness :
    genre_create_post ⟨[⟨"g1", "Fantasy"⟩], [], []⟩ "g2" "fantasy"
      = (⟨[⟨"g1", "Fantasy"⟩], [], []⟩, .redirect (genreUrl "g1")) ∧
    genre_create_post ⟨[], [], []⟩ "g1" "fantasy"
      = (⟨[⟨"g1", escape (jsTrim "fantasy")⟩], [], []⟩, .redirect (genreUrl "g1")) :=
  ⟨((genre_create_post_idempotent ⟨[⟨"g1", "Fantasy"⟩], [], []⟩ "g2" "fantasy"
      (by decide)).1 ⟨"g1", "Fantasy"⟩ (by decide)).1,
   (genre_create_post_idempotent ⟨[], [], []⟩ "g1" "fantasy"
      (by decide)).2 (by decide)⟩

/-- C2: delete is blocked by dependents — a Book with a BookInstance
referencing it, and a Genre referenced by a Book, are not deleted by their
delete_post: the confirmation view is re-rendered and the store is
unchanged; with no dependents the entity is deleted and the response
redirects to the entity list. -/
theorem delete_post_dependent_guard (s : Store) (bid gid : String) :
    ((findBook s bid).isSome → (∃ bi ∈ s.instances, bi.book = bid) →
      book_delete_post s bid bid = (s, [.render "book_delete" []])) ∧
    ((findGenre s gid).isSome → (∃ b ∈ s.books, gid ∈ b.genre) →
      genre_delete_post s gid gid = (s, [.render "genre_delete" []])) ∧
    ((findBook s bid).isSome → (∀ bi ∈ s.instances, bi.book ≠ bid) →
      book_delete_post s bid bid =
        ({ s with books := deleteById Book.id s.books bid },
         [.redirect "/catalog/books"]) ∧
      findBook (book_delete_post s bid bid).1 bid = none) ∧
    ((findGenre s gid).isSome → (∀ b ∈ s.books, gid ∉ b.genre) →
      genre_delete_post s gid gid =
        ({ s with genres := deleteById Genre.id s.genres gid },
         [.redirect "/catalog/genres"]) ∧
      findGenre (genre_delete_post s gid gid).1 gid = none) := by
  refine ⟨?_, ?_, ?_, ?_⟩
  · rintro hb ⟨bi, hmem, hbook⟩
    have hbn : (findBook s bid).isNone = false := by
      cases hfb : findBook s bid with
      | none => rw [hfb] at hb; simp at hb
      | some b => rfl
    have hne : s.instances.filter (fun x => x.book == bid) ≠ [] := by
      intro hnil
      rw [List.filter_eq_nil_iff] at hnil
      exact hnil bi hmem (by simp [hbook])
    have hpos : (s.instances.filter (fun x => x.book == bid)).length > 0 :=
      List.length_pos.mpr hne
    simp only [book_delete_post, hbn, Bool.false_eq_true, if_false]
    rw [if_pos hpos]
    rfl
  · rintro hg ⟨b, hmem, hgin⟩
    have hne : s.books.filter (fun x => x.genre.contains gid) ≠ [] := by
      intro hnil
      rw [List.filter_eq_nil_iff] at hnil
      exact hnil b hmem (by simpa using hgin)
    have hpos : (s.books.filter (fun x => x.genre.contains gid)).length > 0 :=
      List.length_pos.mpr hne
    simp only [genre_delete_post]
    rw [if_pos hpos]
  · intro hb hdep
    have hbn : (findBook s bid).isNone = false := by
      cases hfb : findBook s bid with
      | none => rw [hfb] at hb; simp at hb
      | some b => rfl
    have hnil : s.instances.filter (fun x => x.book == bid) = [] := by
      rw [List.filter_eq_nil_iff]
      intro bi hmem
      simp [hdep bi hmem]
    have hlen : ¬ (s.instances.filter (fun x => x.book == bid)).length > 0 := by
      rw [hnil]
      simp
    constructor
    · simp only [book_delete_post, hbn, Bool.false_eq_true, if_false]
      rw [if_neg hlen]
      rfl
    · have heq : (book_delete_post s bid bid).1
          = { s with books := deleteById Book.id s.books bid } := by
        simp only [book_delete_post, hbn, Bool.false_eq_true, if_false]
        rw [if_neg hlen]
      rw [heq]
      exact findById_deleteById_self Book.id s.books bid
  · intro hg hdep
    have hnil : s.books.filter (fun x => x.genre.contains gid) = [] := by
      rw [List.filter_eq_nil_iff]
      intro b hmem
      simpa using hdep b hmem
    have hlen : ¬ (s.books.filter (fun x => x.genre.contains gid)).length > 0 := by
      rw [hnil]
      simp
    constructor
    · simp only [genre_delete_post]
      rw [if_neg hlen]
    · have heq : (genre_delete_post s gid gid).1
          = { s with genres := deleteById Genre.id s.genres gid } := by
        simp only [genre_delete_post]
        rw [if_neg hlen]
      rw [heq]
      exact findById_deleteById_self Genre.id s.genres gid

/-- C2 witness: in a concrete store, the book with an instance and the
genre referenced by a book are blocked (store unchanged, confirmation view
re-rendered); the dependent-free book and genre are deleted with a
redirect to the list. -/
theorem delete_post_dependent_guard_witness :
    book_delete_post
        ⟨[⟨"g1", "SF"⟩, ⟨"g2", "Poetry"⟩],
         [⟨"b1", "T", "a1", "s", "i", ["g1"]⟩, ⟨"b2", "U", "a1", "s", "i", []⟩],
         [⟨"i1", "b1", "imp", "Available", none⟩]⟩ "b1" "b1"
      = (⟨[⟨"g1", "SF"⟩, ⟨"g2", "Poetry"⟩],
          [⟨"b1", "T", "a1", "s", "i", ["g1"]⟩, ⟨"b2", "U", "a1", "s", "i", []⟩],
          [⟨"i1", "b1", "imp", "Available", none⟩]⟩,
         [.render "book_delete" []]) ∧
    genre_delete_post
        ⟨[⟨"g1", "SF"⟩, ⟨"g2", "Poetry"⟩],
         [⟨"b1", "T", "a1", "s", "i", ["g1"]⟩, ⟨"b2", "U", "a1", "s", "i", []⟩],
         [⟨"i1", "b1", "imp", "Available", none⟩]⟩ "g1" "g1"
      = (⟨[⟨"g1", "SF"⟩, ⟨"g2", "Poetry"⟩],
          [⟨"b1", "T", "a1", "s", "i", ["g1"]⟩, ⟨"b2", "U", "a1", "s", "i", []⟩],
          [⟨"i1", "b1", "imp", "Available", none⟩]⟩,
         [.render "genre_delete" []]) ∧
    book_delete_post
        ⟨[⟨"g1", "SF"⟩, ⟨"g2", "Poetry"⟩],
         [⟨"b1", "T", "a1", "s", "i", ["g1"]⟩, ⟨"b2", "U", "a1", "s", "i", []⟩],
         [⟨"i1", "b1", "imp", "Available", none⟩]⟩ "b2" "b2"
      = (⟨[⟨"g1", "SF"⟩, ⟨"g2", "Poetry"⟩],
          [⟨"b1", "T", "a1", "s", "i", ["g1"]⟩],
          [⟨"i1", "b1", "imp", "Available", none⟩]⟩,
         [.redirect "/catalog/books"]) ∧
    genre_delete_post
        ⟨[⟨"g1", "SF"⟩, ⟨"g2", "Poetry"⟩],
         [⟨"b1", "T", "a1", "s", "i", ["g1"]⟩, ⟨"b2", "U", "a1", "s", "i", []⟩],
         [⟨"i1", "b1", "imp", "Available", none⟩]⟩ "g2" "g2"
      = (⟨[⟨"g1", "SF"⟩],
          [⟨"b1", "T", "a1", "s", "i", ["g1"]⟩, ⟨"b2", "U", "a1", "s", "i", []⟩],
          [⟨"i1", "b1", "imp", "Available", none⟩]⟩,
         [.redirect "/catalog/genres"]) :=
  ⟨(delete_post_dependent_guard
      ⟨[⟨"g1", "SF"⟩, ⟨"g2", "Poetry"⟩],
       [⟨"b1", "T", "a1", "s", "i", ["g1"]⟩, ⟨"b2", "U", "a1", "s", "i", []⟩],
       [⟨"i1", "b1", "imp", "Available", none⟩]⟩ "b1" "g1").1
      (by decide) ⟨⟨"i1", "b1", "imp", "Available", none⟩, by decide, by decide⟩,
   (delete_post_dependent_guard
      ⟨[⟨"g1", "SF"⟩, ⟨"g2", "Poetry"⟩],
       [⟨"b1", "T", "a1", "s", "i", ["g1"]⟩, ⟨"b2", "U", "a1", "s", "i", []⟩],
       [⟨"i1", "b1", "imp", "Available", none⟩]⟩ "b1" "g1").2.1
      (by decide) ⟨⟨"b1", "T", "a1", "s", "i", ["g1"]⟩, by decide, by decide⟩,
   ((delete_post_dependent_guard
      ⟨[⟨"g1", "SF"⟩, ⟨"g2", "Poetry"⟩],
       [⟨"b1", "T", "a1", "s", "i", ["g1"]⟩, ⟨"b2", "U", "a1", "s", "i", []⟩],
       [⟨"i1", "b1", "imp", "Available", none⟩]⟩ "b2" "g2").2.2.1
      (by decide) (by decide)).1,
   ((delete_post_dependent_guard
      ⟨[⟨"g1", "SF"⟩, ⟨"g2", "Poetry"⟩],
       [⟨"b1", "T", "a1", "s", "i", ["g1"]⟩, ⟨"b2", "U", "a1", "s", "i", []⟩],
       [⟨"i1", "b1", "imp", "Available", none⟩]⟩ "b2" "g2").2.2.2
      (by decide) (by decide)).1⟩

/-- C4: submitting `book_create_post` with a title that is empty after
trimming re-renders the form with a success status and an error on the
"title" field, and persists nothing. -/
theorem book_create_post_empty_title (s : Store) (freshId : String)
    (form : BookForm) (h : jsTrim form.title = "") :
    book_create_post s freshId form
      = (s, .render "book_form" (bookValidationErrors form)) ∧
    (⟨"title", "タイトルは必須です"⟩ : FieldError) ∈ bookValidationErrors form ∧
    (book_create_post s freshId form).2.status = 200 := by
  have hterr : requiredMin 1 "title" "タイトルは必須です" form.title
      = [⟨"title", "タイトルは必須です"⟩] := by
    rw [requiredMin, if_neg]
    rw [h]
    decide
  have hne : bookValidationErrors form ≠ [] := by
    rw [bookValidationErrors, hterr]
    simp
  have hmain : book_create_post s freshId form
      = (s, .render "book_form" (bookValidationErrors form)) := by
    simp [book_create_post, hne]
  refine ⟨hmain, ?_, ?_⟩
  · rw [bookValidationErrors, hterr]
    simp
  · rw [hmain]
    rfl

/-- C4 witness: a concrete submission with a whitespace title re-renders
the form with the title error and leaves the empty store empty. -/
theorem book_create_post_empty_title_witness :
    book_create_post ⟨[], [], []⟩ "b1" ⟨"  ", "a1", "sum", "isbn", .absent⟩
      = (⟨[], [], []⟩,
         .render "book_form"
           (bookValidationErrors ⟨"  ", "a1", "sum", "isbn", .absent⟩)) ∧
    (⟨"title", "タイトルは必須です"⟩ : FieldError)
      ∈ bookValidationErrors ⟨"  ", "a1", "sum", "isbn", .absent⟩ ∧
    (book_create_post ⟨[], [], []⟩ "b1" ⟨"  ", "a1", "sum", "isbn", .absent⟩).2.status
      = 200 :=
  book_create_post_empty_title ⟨[], [], []⟩ "b1"
    ⟨"  ", "a1", "sum", "isbn", .absent⟩ (by decide)

/-- C5: every update_post preserves the entity's identity — for an
existing id and valid form data, the stored entity after the update keeps
its id with the mutable fields replaced by the sanitized submission, the
stored ids are unchanged (no fresh record), the other collections are
untouched and the response redirects to the entity's detail url. -/
theorem update_post_preserves_identity (s : Store) (i : String)
    (rawName : String) (bform : BookForm) (iform : BIForm) :
    (3 ≤ (jsTrim rawName).length → (findGenre s i).isSome →
      findGenre (genre_update_post s i rawName).1 i
          = some ⟨i, escape (jsTrim rawName)⟩ ∧
      (genre_update_post s i rawName).1.genres.map Genre.id
          = s.genres.map Genre.id ∧
      (genre_update_post s i rawName).1.books = s.books ∧
      (genre_update_post s i rawName).1.instances = s.instances ∧
      (genre_update_post s i rawName).2 = .redirect (genreUrl i)) ∧
    (bookValidationErrors bform = [] → (findBook s i).isSome →
      findBook (book_update_post s i bform).1 i = some (bookOfForm i bform) ∧
      (book_update_post s i bform).1.books.map Book.id = s.books.map Book.id ∧
      (book_update_post s i bform).1.genres = s.genres ∧
      (book_update_post s i bform).1.instances = s.instances ∧
      (book_update_post s i bform).2 = .redirect (bookUrl i)) ∧
    (biValidationErrors iform = [] → (findInstance s i).isSome →
      findInstance (bookinstance_update_post s i iform).1 i
          = some (biOfForm i iform (biDueDate iform)) ∧
      (bookinstance_update_post s i iform).1.instances.map BookInstance.id
          = s.instances.map BookInstance.id ∧
      (bookinstance_update_post s i iform).1.genres = s.genres ∧
      (bookinstance_update_post s i iform).1.books = s.books ∧
      (bookinstance_update_post s i iform).2
          = .redirect (bookInstanceUrl i)) := by
  refine ⟨?_, ?_, ?_⟩
  · intro hvalid hsome
    have herr : requiredMin 3 "name" "ジャンル名は3文字以上必要です" rawName = [] := by
      rw [requiredMin, if_pos hvalid]
    obtain ⟨g, hg⟩ := Option.isSome_iff_exists.mp hsome
    have hmain : genre_update_post s i rawName
        = ({ s with genres := (updateById Genre.id s.genres i
              (Genre.mk i (escape (jsTrim rawName)))) },
           .redirect (genreUrl i)) := by
      simp only [genre_update_post, herr]
      simp
    rw [hmain]
    refine ⟨?_, ?_, rfl, rfl, rfl⟩
    · show findById Genre.id (updateById Genre.id s.genres i _) i = _
      rw [findById_updateById_self Genre.id s.genres i _ rfl]
      rw [show findById Genre.id s.genres i = some g from hg]
      rfl
    · exact map_key_updateById Genre.id s.genres i _ rfl
  · intro herr hsome
    obtain ⟨b, hb⟩ := Option.isSome_iff_exists.mp hsome
    have hbid : b.id = i := by
      have := List.find?_some hb
      simpa using this
    have hmain : book_update_post s i bform
        = ({ s with books := updateById Book.id s.books i (bookOfForm i bform) },
           .redirect (bookUrl b.id)) := by
      simp only [book_update_post, herr]
      rw [show findBook s i = some b from hb]
      simp
    rw [hmain, hbid]
    refine ⟨?_, ?_, rfl, rfl, rfl⟩
    · show findById Book.id (updateById Book.id s.books i _) i = _
      rw [findById_updateById_self Book.id s.books i _ rfl]
      rw [show findById Book.id s.books i = some b from hb]
      rfl
    · exact map_key_updateById Book.id s.books i _ rfl
  · intro herr hsome
    obtain ⟨bi, hbi⟩ := Option.isSome_iff_exists.mp hsome
    have hmain : bookinstance_update_post s i iform
        = ({ s with instances := (updateById BookInstance.id s.instances i
              (biOfForm i iform (biDueDate iform))) },
           .redirect (bookInstanceUrl i)) := by
      simp only [bookinstance_update_post, herr]
      simp [biOfForm]
    rw [hmain]
    refine ⟨?_, ?_, rfl, rfl, rfl⟩
    · show findById BookInstance.id (updateById BookInstance.id s.instances i _) i = _
      rw [findById_updateById_self BookInstance.id s.instances i _ rfl]
      rw [show findById BookInstance.id s.instances i = some bi from hbi]
      rfl
    · exact map_key_updateById BookInstance.id s.instances i _ rfl

/-- C5 witness: concrete updates of a stored genre, book and instance keep
the id, replace the fields, add no record and redirect to the detail
url. -/
theorem update_post_preserves_identity_witness :
    (findGenre (genre_update_post
        ⟨[⟨"g1", "Old"⟩], [⟨"b1", "T", "a", "s", "i", []⟩],
         [⟨"i1", "b1", "imp", "Available", none⟩]⟩ "g1" "Drama").1 "g1"
      = some ⟨"g1", escape (jsTrim "Drama")⟩) ∧
    (findBook (book_update_post
        ⟨[⟨"g1", "Old"⟩], [⟨"b1", "T", "a", "s", "i", []⟩],
         [⟨"i1", "b1", "imp", "Available", none⟩]⟩ "b1"
        ⟨"T2", "a2", "s2", "i2", .absent⟩).1 "b1"
      = some (bookOfForm "b1" ⟨"T2", "a2", "s2", "i2", .absent⟩)) ∧
    (findInstance (bookinstance_update_post
        ⟨[⟨"g1", "Old"⟩], [⟨"b1", "T", "a", "s", "i", []⟩],
         [⟨"i1", "b1", "imp", "Available", none⟩]⟩ "i1"
        ⟨"b1", "imp2", "Loaned", some "2024-02-29"⟩).1 "i1"
      = some (biOfForm "i1" ⟨"b1", "imp2", "Loaned", some "2024-02-29"⟩
          (biDueDate ⟨"b1", "imp2", "Loaned", some "2024-02-29"⟩))) :=
  ⟨((update_post_preserves_identity
      ⟨[⟨"g1", "Old"⟩], [⟨"b1", "T", "a", "s", "i", []⟩],
       [⟨"i1", "b1", "imp", "Available", none⟩]⟩ "g1" "Drama"
      ⟨"T2", "a2", "s2", "i2", .absent⟩
      ⟨"b1", "imp2", "Loaned", some "2024-02-29"⟩).1 (by decide) (by decide)).1,
   ((update_post_preserves_identity
      ⟨[⟨"g1", "Old"⟩], [⟨"b1", "T", "a", "s", "i", []⟩],
       [⟨"i1", "b1", "imp", "Available", none⟩]⟩ "b1" "Drama"
      ⟨"T2", "a2", "s2", "i2", .absent⟩
      ⟨"b1", "imp2", "Loaned", some "2024-02-29"⟩).2.1 (by decide) (by decide)).1,
   ((update_post_preserves_identity
      ⟨[⟨"g1", "Old"⟩], [⟨"b1", "T", "a", "s", "i", []⟩],
       [⟨"i1", "b1", "imp", "Available", none⟩]⟩ "i1" "Drama"
      ⟨"T2", "a2", "s2", "i2", .absent⟩
      ⟨"b1", "imp2", "Loaned", some "2024-02-29"⟩).2.2 (by decide) (by decide)).1⟩

/-- C6: a present, non-empty `due_back` that does not parse as an
ISO-8601 calendar date makes validation fail with the dedicated due_back
message and nothing is persisted; an absent or empty `due_back` produces
no due_back error; a valid one produces no due_back error and is stored
converted to a date value. -/
theorem bookinstance_due_back_validation (s : Store) (freshId v : String)
    (form : BIForm) (d : CalDate) :
    (form.due_back = some v → v ≠ "" → parseISO8601 v = none →
      bookinstance_create_post s freshId form
        = (s, .render "bookinstance_form" (biValidationErrors form)) ∧
      (⟨"due_back", "無効な日付形式です"⟩ : FieldError) ∈ biValidationErrors form) ∧
    ((form.due_back = none ∨ form.due_back = some "") →
      ∀ e ∈ biValidationErrors form, e.field ≠ "due_back") ∧
    (form.due_back = some v → parseISO8601 v = some d →
      (∀ e ∈ biValidationErrors form, e.field ≠ "due_back") ∧
      (1 ≤ (jsTrim form.book).length → 1 ≤ (jsTrim form.imprint).length →
        bookinstance_create_post s freshId form
          = ({ s with instances := s.instances ++ [biOfForm freshId form (some d)] },
             .redirect (bookInstanceUrl freshId)))) := by
  refine ⟨?_, ?_, ?_⟩
  · intro hdb hv hp
    have hdue : biDueBack form.due_back
        = .error ⟨"due_back", "無効な日付形式です"⟩ := by
      rw [hdb]
      simp only [biDueBack]
      rw [if_neg hv, hp]
    have hmem : (⟨"due_back", "無効な日付形式です"⟩ : FieldError)
        ∈ biValidationErrors form := by
      rw [biValidationErrors, hdue]
      simp
    have hne : biValidationErrors form ≠ [] :=
      fun hnil => by rw [hnil] at hmem; exact List.not_mem_nil _ hmem
    refine ⟨?_, hmem⟩
    simp only [bookinstance_create_post]
    rw [if_neg hne]
  · intro hdb e he
    have hok : biDueBack form.due_back = .ok none := by
      rcases hdb with h0 | h0
      · rw [h0]
        rfl
      · rw [h0]
        simp [biDueBack]
    intro hf
    rw [biValidationErrors, hok] at he
    simp only [List.append_nil] at he
    rcases List.mem_append.mp he with h1 | h2
    · have h1f := mem_requiredMin h1
      rw [hf] at h1f
      exact absurd h1f (by decide)
    · have h2f := mem_requiredMin h2
      rw [hf] at h2f
      exact absurd h2f (by decide)
  · intro hdb hp
    have hok : biDueBack form.due_back = .ok (some d) := by
      rw [hdb]
      simp only [biDueBack]
      have hv : v ≠ "" := by
        intro h0
        rw [h0] at hp
        exact Option.noConfusion hp
      rw [if_neg hv, hp]
    constructor
    · intro e he hf
      rw [biValidationErrors, hok] at he
      simp only [List.append_nil] at he
      rcases List.mem_append.mp he with h1 | h2
      · have h1f := mem_requiredMin h1
        rw [hf] at h1f
        exact absurd h1f (by decide)
      · have h2f := mem_requiredMin h2
        rw [hf] at h2f
        exact absurd h2f (by decide)
    · intro hbk him
      have hb0 : requiredMin 1 "book" "書籍を指定してください" form.book = [] := by
        rw [requiredMin, if_pos hbk]
      have hi0 : requiredMin 1 "imprint" "出版情報を指定してください" form.imprint
          = [] := by
        rw [requiredMin, if_pos him]
      have herr : biValidationErrors form = [] := by
        rw [biValidationErrors, hok, hb0, hi0]
        rfl
      have hdd : biDueDate form = some d := by
        rw [biDueDate, hok]
      simp only [bookinstance_create_post, herr, hdd]
      simp

/-- C6 witness: "not-a-date" is rejected with the due_back message and
persists nothing; an empty due_back yields no due_back error; a leap-day
date is accepted and stored converted. -/
theorem bookinstance_due_back_validation_witness :
    (bookinstance_create_post ⟨[], [], []⟩ "i1"
        ⟨"b1", "imp", "Available", some "not-a-date"⟩
      = (⟨[], [], []⟩,
         .render "bookinstance_form"
           (biValidationErrors ⟨"b1", "imp", "Available", some "not-a-date"⟩))) ∧
    ((⟨"due_back", "無効な日付形式です"⟩ : FieldError)
      ∈ biValidationErrors ⟨"b1", "imp", "Available", some "not-a-date"⟩) ∧
    ((⟨"imprint", "出版情報を指定してください"⟩ : FieldError).field ≠ "due_back") ∧
    (bookinstance_create_post ⟨[], [], []⟩ "i2"
        ⟨"b1", "imp", "Available", some "2024-02-29"⟩
      = (⟨[], [], [biOfForm "i2" ⟨"b1", "imp", "Available", some "2024-02-29"⟩
            (some ⟨2024, 2, 29⟩)]⟩,
         .redirect (bookInstanceUrl "i2"))) := by
  refine ⟨?_, ?_, ?_, ?_⟩
  · exact ((bookinstance_due_back_validation ⟨[], [], []⟩ "i1" "not-a-date"
      ⟨"b1", "imp", "Available", some "not-a-date"⟩ ⟨2024, 2, 29⟩).1
      rfl (by decide) (by decide)).1
  · exact ((bookinstance_due_back_validation ⟨[], [], []⟩ "i1" "not-a-date"
      ⟨"b1", "imp", "Available", some "not-a-date"⟩ ⟨2024, 2, 29⟩).1
      rfl (by decide) (by decide)).2
  · exact (bookinstance_due_back_validation ⟨[], [], []⟩ "i1" ""
      ⟨"b1", "", "Available", some ""⟩ ⟨2024, 2, 29⟩).2.1
      (Or.inr rfl) ⟨"imprint", "出版情報を指定してください"⟩ (by decide)
  · exact ((bookinstance_due_back_validation ⟨[], [], []⟩ "i2" "2024-02-29"
      ⟨"b1", "imp", "Available", some "2024-02-29"⟩ ⟨2024, 2, 29⟩).2.2
      rfl (by decide)).2 (by decide) (by decide)

/-- C8: the BookInstance status field is permissive — the validation used
by `bookinstance_create_post` and `bookinstance_update_post` never reports
an error on the status field for any submitted string, and the stored
value is only HTML-escaped; with an otherwise valid form any status string
whatsoever is persisted escaped by both handlers. -/
theorem bookinstance_status_permissive (s : Store) (i : String)
    (form : BIForm) (d : Option CalDate) :
    (biValidationErrors form).filter (fun e => e.field == "status") = [] ∧
    (biOfForm i form d).status = escape form.status ∧
    (biValidationErrors form = [] →
      (bookinstance_create_post s i form).1.instances
          = s.instances ++ [biOfForm i form (biDueDate form)] ∧
      (bookinstance_update_post s i form).1.instances
          = updateById BookInstance.id s.instances i
              (biOfForm i form (biDueDate form))) := by
  refine ⟨?_, rfl, ?_⟩
  · rw [List.filter_eq_nil_iff]
    intro e he
    rcases mem_biValidationErrors_field he with hf | hf | hf <;> simp [hf]
  · intro herr
    constructor
    · simp only [bookinstance_create_post, herr]
      simp
    · simp only [bookinstance_update_post, herr]
      simp

/-- C8 witness: a status string outside the enumeration (and containing
characters to escape) passes validation and is stored escaped. -/
theorem bookinstance_status_permissive_witness :
    ((biValidationErrors ⟨"b1", "imp", "Bogus<status>", none⟩).filter
        (fun e => e.field == "status") = []) ∧
    ((biOfForm "i1" ⟨"b1", "imp", "Bogus<status>", none⟩ none).status
        = escape "Bogus<status>") ∧
    (bookinstance_create_post ⟨[], [], []⟩ "i1"
        ⟨"b1", "imp", "Bogus<status>", none⟩).1.instances
      = [biOfForm "i1" ⟨"b1", "imp", "Bogus<status>", none⟩
          (biDueDate ⟨"b1", "imp", "Bogus<status>", none⟩)] :=
  ⟨(bookinstance_status_permissive ⟨[], [], []⟩ "i1"
      ⟨"b1", "imp", "Bogus<status>", none⟩ none).1,
   (bookinstance_status_permissive ⟨[], [], []⟩ "i1"
      ⟨"b1", "imp", "Bogus<status>", none⟩ none).2.1,
   ((bookinstance_status_permissive ⟨[], [], []⟩ "i1"
      ⟨"b1", "imp", "Bogus<status>", none⟩ none).2.2 (by decide)).1⟩

/-- C9: in `genre_delete_post` and `book_delete_post` the dependent check
uses the url-parameter id but the deletion targets the request-body id —
when they differ and the url-id entity has no dependents, the entity named
by the body id is the one deleted (unchecked for dependents), while the
url-id entity remains stored. -/
theorem delete_post_body_id_mismatch (s : Store) (urlId bodyId : String)
    (hne : bodyId ≠ urlId) :
    ((∀ b ∈ s.books, urlId ∉ b.genre) →
      genre_delete_post s urlId bodyId
        = ({ s with genres := deleteById Genre.id s.genres bodyId },
           [.redirect "/catalog/genres"]) ∧
      findGenre (genre_delete_post s urlId bodyId).1 bodyId = none ∧
      findGenre (genre_delete_post s urlId bodyId).1 urlId = findGenre s urlId) ∧
    ((∀ bi ∈ s.instances, bi.book ≠ urlId) → (findBook s urlId).isSome →
      book_delete_post s urlId bodyId
        = ({ s with books := deleteById Book.id s.books bodyId },
           [.redirect "/catalog/books"]) ∧
      findBook (book_delete_post s urlId bodyId).1 bodyId = none ∧
      findBook (book_delete_post s urlId bodyId).1 urlId = findBook s urlId) := by
  constructor
  · intro hdep
    have hnil : s.books.filter (fun x => x.genre.contains urlId) = [] := by
      rw [List.filter_eq_nil_iff]
      intro b hmem
      simpa using hdep b hmem
    have hlen : ¬ (s.books.filter (fun x => x.genre.contains urlId)).length > 0 := by
      rw [hnil]
      simp
    have hmain : genre_delete_post s urlId bodyId
        = ({ s with genres := deleteById Genre.id s.genres bodyId },
           [.redirect "/catalog/genres"]) := by
      simp only [genre_delete_post]
      rw [if_neg hlen]
    refine ⟨hmain, ?_, ?_⟩
    · rw [hmain]
      exact findById_deleteById_self Genre.id s.genres bodyId
    · rw [hmain]
      exact findById_deleteById_ne Genre.id s.genres bodyId urlId hne.symm
  · intro hdep hb
    have hbn : (findBook s urlId).isNone = false := by
      cases hfb : findBook s urlId with
      | none => rw [hfb] at hb; simp at hb
      | some b => rfl
    have hnil : s.instances.filter (fun x => x.book == urlId) = [] := by
      rw [List.filter_eq_nil_iff]
      intro bi hmem
      simp [hdep bi hmem]
    have hlen : ¬ (s.instances.filter (fun x => x.book == urlId)).length > 0 := by
      rw [hnil]
      simp
    have hmain : book_delete_post s urlId bodyId
        = ({ s with books := deleteById Book.id s.books bodyId },
           [.redirect "/catalog/books"]) := by
      simp only [book_delete_post, hbn, Bool.false_eq_true, if_false]
      rw [if_neg hlen]
      rfl
    refine ⟨hmain, ?_, ?_⟩
    · rw [hmain]
      exact findById_deleteById_self Book.id s.books bodyId
    · rw [hmain]
      exact findById_deleteById_ne Book.id s.books bodyId urlId hne.symm

/-- C9 witness: with url id `g1`/`b1` (dependent-free) and body id
`g2`/`b2`, the `g2`/`b2` records are deleted while `g1`/`b1` remain
stored. -/
theorem delete_post_body_id_mismatch_witness :
    (genre_delete_post
        ⟨[⟨"g1", "SF"⟩, ⟨"g2", "Poetry"⟩], [], []⟩ "g1" "g2"
      = (⟨[⟨"g1", "SF"⟩], [], []⟩, [.redirect "/catalog/genres"])) ∧
    (book_delete_post
        ⟨[], [⟨"b1", "T", "a", "s", "i", []⟩, ⟨"b2", "U", "a", "s", "i", []⟩], []⟩
        "b1" "b2"
      = (⟨[], [⟨"b1", "T", "a", "s", "i", []⟩], []⟩,
         [.redirect "/catalog/books"])) :=
  ⟨((delete_post_body_id_mismatch
      ⟨[⟨"g1", "SF"⟩, ⟨"g2", "Poetry"⟩], [], []⟩ "g1" "g2" (by decide)).1
      (by decide)).1,
   ((delete_post_body_id_mismatch
      ⟨[], [⟨"b1", "T", "a", "s", "i", []⟩, ⟨"b2", "U", "a", "s", "i", []⟩], []⟩
      "b1" "b2" (by decide)).2 (by decide) (by decide)).1⟩

end LocalLibrary
